import Mathlib

/-!
Verification of the appointment-scheduling form component
(`src/components/AppointmentForm.tsx`).

The component's logic is embedded shallowly:

* JavaScript `Date` values are modelled by `DateTime`, a record of the
  local-time components (`getFullYear`, `getMonth` (0-based), `getDate`,
  `getHours`, `getMinutes`, `getSeconds`, `getMilliseconds`).  Relational
  comparison of `Date` objects in JS compares their time values (epoch
  milliseconds); with a fixed UTC offset this order coincides with the
  lexicographic/civil order computed by `timeValue` below.
* The mutating setters `setFullYear`, `setMonth`, `setDate`, `setHours`,
  `setMinutes` are modelled as pure functions.  Per ECMA-262 these setters
  recompute the time value with `MakeDay`/`MakeTime`, so an out-of-range
  day-of-month overflows into the following month (e.g. Jan 31 with
  `setMonth(1)` becomes Mar 2/3); `normDate` implements that normalisation.
* React `useState` state is the record `FormState`; each event handler is a
  pure function from the old state (plus its event arguments and the current
  instant `now`) to the new state.  The `onSubmit` callback is modelled by an
  `Option Appointment` result: `some a` means the callback was invoked exactly
  once with payload `a`, `none` means it was not invoked.
* The submit `Button` carries `disabled={isLoading}`; a disabled button never
  fires `onPress`, which `submitWithProps` reflects by short-circuiting on the
  `isLoading` prop.
-/

/-- A JavaScript `Date`, by its local-time components.  `month` is 0-based
(as `getMonth`), `day` is 1-based (as `getDate`). -/
structure DateTime where
  year : Nat
  month : Nat
  day : Nat
  hour : Nat
  minute : Nat
  second : Nat
  ms : Nat
deriving DecidableEq

/-- Gregorian leap-year test, as in ECMA-262 `DaysInYear`. -/
def isLeap (y : Nat) : Bool :=
  (y % 4 == 0 && y % 100 != 0) || y % 400 == 0

/-- Number of days in month `m` (0-based) of year `y`. -/
def daysInMonth (y m : Nat) : Nat :=
  if m = 1 then (if isLeap y then 29 else 28)
  else if m = 3 ∨ m = 5 ∨ m = 8 ∨ m = 10 then 30
  else 31

/-- Days in the months of year `y` strictly before month `m`. -/
def daysBeforeMonth (y m : Nat) : Nat :=
  (List.range m).foldl (fun acc i => acc + daysInMonth y i) 0

/-- Number of leap years in `[0, y)`. -/
def leapsBefore (y : Nat) : Nat :=
  ((List.range y).filter (fun i => isLeap i)).length

/-- Day number of a civil date counted from year 0. -/
def daysFromYear0 (d : DateTime) : Nat :=
  365 * d.year + leapsBefore d.year + daysBeforeMonth d.year d.month + (d.day - 1)

/-- Milliseconds-resolution time value of a `DateTime`; the order of
`timeValue` is the order JS `<` uses on `Date` objects. -/
def timeValue (d : DateTime) : Nat :=
  (((daysFromYear0 d * 24 + d.hour) * 60 + d.minute) * 60 + d.second) * 1000 + d.ms

/-- JS relational `<` on `Date` objects. -/
abbrev dtLt (a b : DateTime) : Prop := timeValue a < timeValue b

/-- Normalise a day-of-month that may exceed its month's length by rolling
into following months (ECMA-262 `MakeDay` overflow).  The first argument is
fuel; since every roll removes at least 28 days, fuel `d` always suffices. -/
def rollDayAux : Nat → Nat → Nat → Nat → Nat × Nat × Nat
  | 0, y, m, d => (y, m, d)
  | fuel + 1, y, m, d =>
    if d ≤ daysInMonth y m then (y, m, d)
    else rollDayAux fuel (if m = 11 then y + 1 else y) (if m = 11 then 0 else m + 1)
      (d - daysInMonth y m)

/-- ECMA-262 `MakeDay`: months ≥ 12 carry into the year, then day overflow
rolls into following months. -/
def normDate (y m d : Nat) : Nat × Nat × Nat :=
  rollDayAux d (y + m / 12) (m % 12) d

/-- `date.setFullYear(y)`: set the year and renormalise (Feb 29 of a leap year
becomes Mar 1 in a common year).  Time-of-day fields are untouched. -/
def DateTime.setFullYear (dt : DateTime) (y : Nat) : DateTime :=
  let n := normDate y dt.month dt.day
  { dt with year := n.1, month := n.2.1, day := n.2.2 }

/-- `date.setMonth(m)`: set the month; a day-of-month longer than the new
month overflows into the following month.  Time-of-day fields are untouched. -/
def DateTime.setMonth (dt : DateTime) (m : Nat) : DateTime :=
  let n := normDate dt.year m dt.day
  { dt with year := n.1, month := n.2.1, day := n.2.2 }

/-- `date.setDate(d)`: set the day-of-month (overflow rolls forward).
Time-of-day fields are untouched. -/
def DateTime.setDate (dt : DateTime) (d : Nat) : DateTime :=
  let n := normDate dt.year dt.month d
  { dt with year := n.1, month := n.2.1, day := n.2.2 }

/-- `date.setHours(h)` with one argument: minutes, seconds and milliseconds
are kept; hours ≥ 24 carry into the day. -/
def DateTime.setHours (dt : DateTime) (h : Nat) : DateTime :=
  let n := normDate dt.year dt.month (dt.day + h / 24)
  { dt with year := n.1, month := n.2.1, day := n.2.2, hour := h % 24 }

/-- `date.setMinutes(mi)` with one argument: seconds and milliseconds are
kept; minutes ≥ 60 carry into hours and then days. -/
def DateTime.setMinutes (dt : DateTime) (mi : Nat) : DateTime :=
  let h' := dt.hour + mi / 60
  let n := normDate dt.year dt.month (dt.day + h' / 24)
  { dt with year := n.1, month := n.2.1, day := n.2.2, hour := h' % 24, minute := mi % 60 }

/-- The components a real JS `Date` always has (what `getMonth`, `getDate`,
`getHours`, ... can return). -/
def DateTime.Valid (d : DateTime) : Prop :=
  d.month < 12 ∧ 1 ≤ d.day ∧ d.day ≤ daysInMonth d.year d.month ∧
    d.hour < 24 ∧ d.minute < 60 ∧ d.second < 60 ∧ d.ms < 1000

instance (d : DateTime) : Decidable d.Valid := by
  unfold DateTime.Valid; infer_instance

/-- A `Doctor` record (`interface Doctor`). -/
structure Doctor where
  id : String
  name : String
  specialty : String
deriving DecidableEq

/-- The payload handed to the `onSubmit` callback. -/
structure Appointment where
  doctorId : String
  date : DateTime
  notes : String
deriving DecidableEq

/-- The component's `useState` slots: `doctorId`, `date`, `notes`,
`showDatePicker`, `showTimePicker`, `errors`.  The `errors` object is a
string-keyed map, modelled as an association list in insertion order. -/
structure FormState where
  doctorId : String
  date : DateTime
  notes : String
  showDatePicker : Bool
  showTimePicker : Bool
  errors : List (String × String)
deriving DecidableEq

/-- Construction-time props that the submit path can observe. -/
structure AppointmentFormProps where
  doctors : List Doctor
  isLoading : Bool

def msgDoctor : String := "Por favor, selecione um médico"

def msgDate : String := "A data da consulta deve ser no futuro"

/-- `validateForm` (lines 43–57): builds a fresh `newErrors` object —
`doctorId` entry when the id is the empty string (the only falsy string),
`date` entry when `date < new Date()` — stores it into the `errors` state
wholesale, and returns whether it has zero keys.  `now` is the instant at
which `new Date()` is evaluated. -/
def validateForm (now : DateTime) (s : FormState) : FormState × Bool :=
  let newErrors : List (String × String) :=
    (if s.doctorId = "" then [("doctorId", msgDoctor)] else []) ++
    (if dtLt s.date now then [("date", msgDate)] else [])
  ({ s with errors := newErrors }, newErrors.length == 0)

/-- `handleSubmit` (lines 59–67): run the validator; when it returns true,
invoke `onSubmit` once with `{ doctorId, date, notes }` from the current
state.  The `Option` result records the (at most one) callback invocation. -/
def handleSubmit (now : DateTime) (s : FormState) : FormState × Option Appointment :=
  let r := validateForm now s
  if r.2 then (r.1, some ⟨s.doctorId, s.date, s.notes⟩) else (r.1, none)

/-- `onDateChange` (lines 69–78): always reset `showDatePicker` to
`Platform.OS === 'ios'`; when a date was selected, copy the current date and
apply `setFullYear`, `setMonth`, `setDate` from the selection. -/
def onDateChange (platformIsIOS : Bool) (selectedDate : Option DateTime)
    (s : FormState) : FormState :=
  let s1 := { s with showDatePicker := platformIsIOS }
  match selectedDate with
  | none => s1
  | some sel =>
    { s1 with date := ((s.date.setFullYear sel.year).setMonth sel.month).setDate sel.day }

/-- `onTimeChange` (lines 80–88): always reset `showTimePicker` to
`Platform.OS === 'ios'`; when a time was selected, copy the current date and
apply `setHours`, `setMinutes` from the selection. -/
def onTimeChange (platformIsIOS : Bool) (selectedTime : Option DateTime)
    (s : FormState) : FormState :=
  let s1 := { s with showTimePicker := platformIsIOS }
  match selectedTime with
  | none => s1
  | some sel =>
    { s1 with date := (s.date.setHours sel.hour).setMinutes sel.minute }

/-- The user-visible submit action: the `Button` (lines 169–176) has
`onPress={handleSubmit}` and `disabled={isLoading}`, and a disabled button
never fires `onPress`. -/
def submitWithProps (p : AppointmentFormProps) (now : DateTime)
    (s : FormState) : FormState × Option Appointment :=
  if p.isLoading then (s, none) else handleSubmit now s

/-! ### Helper lemmas about day normalisation -/

theorem rollDayAux_of_le (fuel y m d : Nat) (h : d ≤ daysInMonth y m) :
    rollDayAux fuel y m d = (y, m, d) := by
  cases fuel <;> simp [rollDayAux, h]

theorem normDate_eq_self (y m d : Nat) (hm : m < 12) (hd : d ≤ daysInMonth y m) :
    normDate y m d = (y, m, d) := by
  simp [normDate, Nat.div_eq_of_lt hm, Nat.mod_eq_of_lt hm, rollDayAux_of_le _ _ _ _ hd]

/-! ### Concrete values used by counterexamples and witnesses -/

def c1Now : DateTime := ⟨2, 0, 5, 10, 0, 0, 0⟩

/-- A draft whose date-time equals the validation instant exactly. -/
def c1State : FormState := ⟨"d1", c1Now, "", false, false, []⟩

/-- A draft dated strictly after `c1Now`. -/
def c1Future : FormState := ⟨"d1", ⟨2, 0, 6, 10, 0, 0, 0⟩, "", false, false, []⟩

/-- Claim C1, as stated, is false: a draft whose date-time is exactly the
current instant (at or before now) gets no `date` error, validates as true,
and is forwarded to `onSubmit` with a date-time not strictly later than the
moment of evaluation. -/
theorem validateForm_at_now_no_error :
    ¬ dtLt c1State.date c1Now ∧
    (validateForm c1Now c1State).1.errors.lookup "date" = none ∧
    (handleSubmit c1Now c1State).2 = some ⟨"d1", c1Now, ""⟩ := by
  decide

/-- Claim C1 (amended): the validator reports a `date` error exactly when the
draft's date-time is strictly before the current instant, and any appointment
forwarded to the external handler has a date-time at or after (not strictly
later than) the moment of evaluation. -/
theorem validateForm_date_error_iff_past (now : DateTime) (s : FormState) :
    ((validateForm now s).1.errors.lookup "date" = none ↔ ¬ dtLt s.date now) ∧
    (∀ a, (handleSubmit now s).2 = some a → ¬ dtLt a.date now) := by
  by_cases hdoc : s.doctorId = "" <;> by_cases hdt : dtLt s.date now <;>
    simp [validateForm, handleSubmit, List.lookup, hdoc, hdt] <;> omega

/-- Witness for `validateForm_date_error_iff_past` at a concrete draft that
is actually forwarded. -/
theorem validateForm_date_error_iff_past_witness :
    ((validateForm c1Now c1Future).1.errors.lookup "date" = none ↔
      ¬ dtLt c1Future.date c1Now) ∧
    ¬ dtLt (⟨"d1", ⟨2, 0, 6, 10, 0, 0, 0⟩, ""⟩ : Appointment).date c1Now :=
  ⟨(validateForm_date_error_iff_past c1Now c1Future).1,
   (validateForm_date_error_iff_past c1Now c1Future).2
     ⟨"d1", ⟨2, 0, 6, 10, 0, 0, 0⟩, ""⟩ (by decide)⟩

/-- Claim C2: a draft with a non-empty `doctorId` and a date-time strictly
after the current instant validates with an empty error mapping, and submit
invokes `onSubmit` exactly once with exactly `{doctorId, date, notes}` from
the current form state. -/
theorem handleSubmit_valid_submits (now : DateTime) (s : FormState)
    (hdoc : s.doctorId ≠ "") (hfut : dtLt now s.date) :
    (validateForm now s).1.errors = [] ∧ (validateForm now s).2 = true ∧
    (handleSubmit now s).2 = some ⟨s.doctorId, s.date, s.notes⟩ := by
  have hnd : ¬ dtLt s.date now := Nat.lt_asymm hfut
  simp [validateForm, handleSubmit, hdoc, hnd]

/-- Witness for `handleSubmit_valid_submits` on a concrete future-dated
draft. -/
theorem handleSubmit_valid_submits_witness :
    (validateForm c1Now c1Future).1.errors = [] ∧
    (validateForm c1Now c1Future).2 = true ∧
    (handleSubmit c1Now c1Future).2 = some ⟨"d1", ⟨2, 0, 6, 10, 0, 0, 0⟩, ""⟩ :=
  handleSubmit_valid_submits c1Now c1Future (by decide) (by decide)

/-- Claim C3: a draft with an empty `doctorId` gets a `doctorId` error (with
the "select a doctor" message) and submit does not invoke `onSubmit`. -/
theorem validateForm_empty_doctor (now : DateTime) (s : FormState)
    (h : s.doctorId = "") :
    (validateForm now s).1.errors.lookup "doctorId" = some msgDoctor ∧
    (handleSubmit now s).2 = none := by
  by_cases hdt : dtLt s.date now <;>
    simp [validateForm, handleSubmit, List.lookup, h, hdt]

/-- Witness for `validateForm_empty_doctor` on a concrete doctorless draft. -/
theorem validateForm_empty_doctor_witness :
    (validateForm c1Now ⟨"", c1Now, "notes", false, false, []⟩).1.errors.lookup
      "doctorId" = some msgDoctor ∧
    (handleSubmit c1Now ⟨"", c1Now, "notes", false, false, []⟩).2 = none :=
  validateForm_empty_doctor c1Now ⟨"", c1Now, "notes", false, false, []⟩ (by decide)

/-- Base state for the date-picker overflow run: Jan 31 2024, 10:00. -/
def c4State : FormState := ⟨"d1", ⟨2024, 0, 31, 10, 0, 0, 0⟩, "", false, false, []⟩

/-- Date selected in the picker: Feb 15 2024 (month index 1). -/
def c4Picker : DateTime := ⟨2024, 1, 15, 0, 0, 0, 0⟩

/-- Claim C4 run at the failing input: from a base date of Jan 31 2024 10:00,
picking Feb 15 2024 yields **Mar** 15 2024 10:00 (month index 2, not the
picker's 1): `setMonth(1)` on a date whose day-of-month is 31 overflows
Feb 31 into March before `setDate(15)` runs.  The time-of-day is preserved,
but the resulting month is not the picker's month. -/
theorem onDateChange_month_overflow :
    (onDateChange false (some c4Picker) c4State).date = ⟨2024, 2, 15, 10, 0, 0, 0⟩ ∧
    (onDateChange false (some c4Picker) c4State).date.month ≠ c4Picker.month := by
  decide

/-- Claim C5: applying the time-picker path with a selected time (from a real
`Date`, so hour < 24 and minute < 60) to a state holding a real `Date` sets
exactly the picker's hour and minute and leaves year, month, day-of-month —
and even seconds and milliseconds — bit-identical to their prior values. -/
theorem onTimeChange_splices_time (p : Bool) (sel : DateTime) (s : FormState)
    (hsel : sel.Valid) (hs : s.date.Valid) :
    (onTimeChange p (some sel) s).date.hour = sel.hour ∧
    (onTimeChange p (some sel) s).date.minute = sel.minute ∧
    (onTimeChange p (some sel) s).date.year = s.date.year ∧
    (onTimeChange p (some sel) s).date.month = s.date.month ∧
    (onTimeChange p (some sel) s).date.day = s.date.day ∧
    (onTimeChange p (some sel) s).date.second = s.date.second ∧
    (onTimeChange p (some sel) s).date.ms = s.date.ms := by
  obtain ⟨-, -, -, hh, hmin, -, -⟩ := hsel
  obtain ⟨hm, -, hd2, -, -, -, -⟩ := hs
  have e1 : s.date.setHours sel.hour = { s.date with hour := sel.hour } := by
    simp [DateTime.setHours, Nat.div_eq_of_lt hh, Nat.mod_eq_of_lt hh,
      normDate_eq_self _ _ _ hm hd2]
  have e2 : ({ s.date with hour := sel.hour } : DateTime).setMinutes sel.minute =
      { s.date with hour := sel.hour, minute := sel.minute } := by
    simp [DateTime.setMinutes, Nat.div_eq_of_lt hmin, Nat.div_eq_of_lt hh,
      Nat.mod_eq_of_lt hh, Nat.mod_eq_of_lt hmin, normDate_eq_self _ _ _ hm hd2]
  simp [onTimeChange, e1, e2]

/-- Witness for `onTimeChange_splices_time`: picking 16:30 onto a state dated
Mar 14 (year 5) 09:45:07.003. -/
theorem onTimeChange_splices_time_witness :
    (onTimeChange false (some ⟨3, 4, 10, 16, 30, 0, 0⟩)
        ⟨"d1", ⟨5, 2, 14, 9, 45, 7, 3⟩, "", false, false, []⟩).date.hour = 16 ∧
    (onTimeChange false (some ⟨3, 4, 10, 16, 30, 0, 0⟩)
        ⟨"d1", ⟨5, 2, 14, 9, 45, 7, 3⟩, "", false, false, []⟩).date.minute = 30 ∧
    (onTimeChange false (some ⟨3, 4, 10, 16, 30, 0, 0⟩)
        ⟨"d1", ⟨5, 2, 14, 9, 45, 7, 3⟩, "", false, false, []⟩).date.year = 5 ∧
    (onTimeChange false (some ⟨3, 4, 10, 16, 30, 0, 0⟩)
        ⟨"d1", ⟨5, 2, 14, 9, 45, 7, 3⟩, "", false, false, []⟩).date.month = 2 ∧
    (onTimeChange false (some ⟨3, 4, 10, 16, 30, 0, 0⟩)
        ⟨"d1", ⟨5, 2, 14, 9, 45, 7, 3⟩, "", false, false, []⟩).date.day = 14 ∧
    (onTimeChange false (some ⟨3, 4, 10, 16, 30, 0, 0⟩)
        ⟨"d1", ⟨5, 2, 14, 9, 45, 7, 3⟩, "", false, false, []⟩).date.second = 7 ∧
    (onTimeChange false (some ⟨3, 4, 10, 16, 30, 0, 0⟩)
        ⟨"d1", ⟨5, 2, 14, 9, 45, 7, 3⟩, "", false, false, []⟩).date.ms = 3 :=
  onTimeChange_splices_time false ⟨3, 4, 10, 16, 30, 0, 0⟩
    ⟨"d1", ⟨5, 2, 14, 9, 45, 7, 3⟩, "", false, false, []⟩ (by decide) (by decide)

/-- Claim C6: while `isLoading` is true the submit button is disabled, so
triggering the submit action invokes no `onSubmit` and changes no state —
for every doctors list, instant, and draft, valid or not. -/
theorem submit_noop_while_loading (ds : List Doctor) (now : DateTime) (s : FormState) :
    (submitWithProps ⟨ds, true⟩ now s).2 = none ∧
    (submitWithProps ⟨ds, true⟩ now s).1 = s := by
  simp [submitWithProps]

/-- Claim C7: the validator answers true exactly when the freshly computed
error mapping is empty, and the stored mapping is that fresh computation —
unchanged whatever error mapping `e0` was stored before (wholesale
replacement, no merging). -/
theorem validateForm_fresh_iff_empty (now : DateTime) (s : FormState)
    (e0 : List (String × String)) :
    (validateForm now { s with errors := e0 }).1.errors =
      (validateForm now s).1.errors ∧
    ((validateForm now s).2 = true ↔ (validateForm now s).1.errors = []) := by
  by_cases hdoc : s.doctorId = "" <;> by_cases hdt : dtLt s.date now <;>
    simp [validateForm, hdoc, hdt]

/-- Claim C8: validating twice in succession (at the same instant, the draft
unchanged) yields the same result state and the same verdict the second
time; in particular the error mapping is identical both times. -/
theorem validateForm_idempotent (now : DateTime) (s : FormState) :
    validateForm now (validateForm now s).1 = validateForm now s := by
  simp [validateForm]

/-- Claim C9: the doctors list does not influence validation or the payload
(the submit action is the same function of the draft for any two lists), and
a non-empty `doctorId` never gets a `doctorId` error — even an identifier
occurring in no doctors list, since no membership test exists. -/
theorem doctors_list_noninterference (ds1 ds2 : List Doctor) (load : Bool)
    (now : DateTime) (s : FormState) (h : s.doctorId ≠ "") :
    submitWithProps ⟨ds1, load⟩ now s = submitWithProps ⟨ds2, load⟩ now s ∧
    (validateForm now s).1.errors.lookup "doctorId" = none := by
  refine ⟨rfl, ?_⟩
  by_cases hdt : dtLt s.date now <;> simp [validateForm, List.lookup, h, hdt]

/-- Witness for `doctors_list_noninterference`: the id "zz" occurs in
neither list, yet no `doctorId` error is reported. -/
theorem doctors_list_noninterference_witness :
    submitWithProps ⟨[⟨"d1", "Ana", "Cardio"⟩], false⟩ c1Now
        ⟨"zz", c1Now, "", false, false, []⟩ =
      submitWithProps ⟨[], false⟩ c1Now ⟨"zz", c1Now, "", false, false, []⟩ ∧
    (validateForm c1Now ⟨"zz", c1Now, "", false, false, []⟩).1.errors.lookup
      "doctorId" = none :=
  doctors_list_noninterference [⟨"d1", "Ana", "Cardio"⟩] [] false c1Now
    ⟨"zz", c1Now, "", false, false, []⟩ (by decide)

/-- Claim C10: a picker change event arriving with no selected value (e.g. on
dismissal) leaves the entire state — the date-time in particular — unchanged
except for the corresponding picker-visibility flag, which is set to
`Platform.OS === 'ios'`. -/
theorem picker_dismiss_frame (p : Bool) (s : FormState) :
    onDateChange p none s = { s with showDatePicker := p } ∧
    onTimeChange p none s = { s with showTimePicker := p } :=
  ⟨rfl, rfl⟩
